import Mathlib

/-!
Verification of `src/main.py` of MBU_Purge_Database.

The module under study exposes
  * `execute_stored_procedure(connection_string, stored_procedure, params)` —
    executes a stored procedure with typed parameters through pyodbc and
    returns a result dictionary `{success, error_message, rows_updated?}`;
  * `list_stored_procedures()` — lists procedure names from `sys.procedures`.

The pyodbc driver, the `dateutil` ISO parser, Python builtins (`str`, `int`,
`float`) and `json.dumps` are external collaborators: they are embedded here as
oracles (for the driver) and as executable models of the documented behaviour
on the value shapes the program can feed them.  The control flow, the statement
construction, the exception dispatch and the result mutation of
`execute_stored_procedure` itself are translated line by line from the source.
-/

/-- A Python runtime value, covering the shapes relevant to parameter passing:
strings, integers, floats (modelled as rationals), booleans, `None`, lists,
tuples, dictionaries with string keys, and parsed datetimes (represented by the
accepted ISO text). -/
inductive PyVal where
  | str (s : String)
  | int (n : Int)
  | float (q : Rat)
  | bool (b : Bool)
  | pyNone
  | list (xs : List PyVal)
  | tuple (xs : List PyVal)
  | dict (kvs : List (String × PyVal))
  | datetime (iso : String)

/-- A Python exception as observed by the `except` ladder of
`execute_stored_procedure`: a `pyodbc.Error`, a `ValueError`, or any other
exception (caught by `except Exception`).  Each carries its `str(e)` text. -/
inductive PyExn where
  | pyodbcError (detail : String)
  | valueError (detail : String)
  | otherError (detail : String)
deriving DecidableEq

/-- The message stored into `result["error_message"]` by the three `except`
clauses at lines 74-79 of `src/main.py`. -/
def excMessage : PyExn → String
  | .pyodbcError d => "Database error: " ++ d
  | .valueError d => "Value error: " ++ d
  | .otherError d => "An unexpected error occurred: " ++ d

mutual
/-- Model of Python `repr` on the embedded values (used by `str` on
containers).  Quote-escaping inside string reprs is not modelled; it is never
reached by the claims. -/
def pyRepr : PyVal → String
  | .str s => "\x27" ++ s ++ "\x27"
  | .int n => toString n
  | .float q => toString q
  | .bool b => if b then "True" else "False"
  | .pyNone => "None"
  | .datetime iso => "datetime(" ++ iso ++ ")"
  | .list xs => "[" ++ String.intercalate ", " (pyReprList xs) ++ "]"
  | .tuple xs => "(" ++ String.intercalate ", " (pyReprList xs) ++ ")"
  | .dict kvs => "\x7b" ++ String.intercalate ", " (pyReprPairs kvs) ++ "\x7d"

def pyReprList : List PyVal → List String
  | [] => []
  | v :: vs => pyRepr v :: pyReprList vs

def pyReprPairs : List (String × PyVal) → List String
  | [] => []
  | (k, v) :: kvs => ("\x27" ++ k ++ "\x27: " ++ pyRepr v) :: pyReprPairs kvs
end

/-- Model of the Python builtin `str`: identity on strings, `repr`-like text on
everything else. -/
def py_str (v : PyVal) : String :=
  match v with
  | .str s => s
  | v => pyRepr v

/-- Numeric value of a list of decimal digit characters. -/
def digitsVal (cs : List Char) : Nat :=
  cs.foldl (fun a c => a * 10 + (c.toNat - 48)) 0

/-- Whitespace characters stripped by the numeric constructors. -/
def isSpaceChar (c : Char) : Bool :=
  c = ' ' || c = '\t' || c = '\n' || c = '\r' || c = '\x0b' || c = '\x0c'

/-- Strip leading and trailing whitespace from a character list. -/
def trimChars (cs : List Char) : List Char :=
  ((cs.dropWhile isSpaceChar).reverse.dropWhile isSpaceChar).reverse

/-- Model of the string acceptance of Python `int(·)`: optional surrounding
whitespace, an optional sign, then a nonempty run of decimal digits.
(Underscore separators of numeric literals are not modelled.) -/
def intLitParse (s : String) : Option Int :=
  let cs := trimChars s.toList
  match cs with
  | '-' :: rest =>
      if !rest.isEmpty && rest.all Char.isDigit then some (-(digitsVal rest : Int)) else none
  | '+' :: rest =>
      if !rest.isEmpty && rest.all Char.isDigit then some (digitsVal rest : Int) else none
  | _ =>
      if !cs.isEmpty && cs.all Char.isDigit then some (digitsVal cs : Int) else none

/-- Truncation toward zero of a rational, modelling Python `int(float)`. -/
def ratTrunc (q : Rat) : Int :=
  if q < 0 then -(Rat.floor (-q)) else Rat.floor q

/-- Model of the Python builtin `int` applied to a raw parameter value:
integers and booleans pass, floats truncate, strings parse (raising
`ValueError` on a non-numeric literal), other shapes raise `TypeError`
(an exception outside `ValueError`/`pyodbc.Error`). -/
def py_int : PyVal → Except PyExn PyVal
  | .int n => .ok (.int n)
  | .bool b => .ok (.int (if b then 1 else 0))
  | .float q => .ok (.int (ratTrunc q))
  | .str s =>
      match intLitParse s with
      | some n => .ok (.int n)
      | none =>
          .error (.valueError ("invalid literal for int() with base 10: \x27" ++ s ++ "\x27"))
  | _ => .error (.otherError "int() argument must be a string, a bytes-like object or a real number, not this type")

/-- Model of the string acceptance of Python `float(·)`: optional surrounding
whitespace, optional sign, digits with at most one decimal point and at least
one digit overall.  (Exponent notation and inf/nan are not modelled.)  Returns
the rational value of the accepted literal. -/
def floatLitParse (s : String) : Option Rat :=
  let cs := trimChars s.toList
  let core : List Char → Option Rat := fun ds =>
    match ds.splitOn '.' with
    | [whole] =>
        if !whole.isEmpty && whole.all Char.isDigit then some (digitsVal whole : Rat) else none
    | [whole, frac] =>
        if (whole.all Char.isDigit && frac.all Char.isDigit) &&
            (!whole.isEmpty || !frac.isEmpty) then
          some ((digitsVal whole : Rat) + (digitsVal frac : Rat) / ((10 : Rat) ^ frac.length))
        else none
    | _ => none
  match cs with
  | '-' :: rest => (core rest).map (fun q => -q)
  | '+' :: rest => core rest
  | _ => core cs

/-- Model of the Python builtin `float` applied to a raw parameter value. -/
def py_float : PyVal → Except PyExn PyVal
  | .int n => .ok (.float (n : Rat))
  | .bool b => .ok (.float (if b then 1 else 0))
  | .float q => .ok (.float q)
  | .str s =>
      match floatLitParse s with
      | some q => .ok (.float q)
      | none => .error (.valueError ("could not convert string to float: \x27" ++ s ++ "\x27"))
  | _ => .error (.otherError "float() argument must be a string or a real number, not this type")

/-- Validity of an `HH:MM` or `HH:MM:SS` time part. -/
def isoTimeOk : List Char → Bool
  | [h1, h2, ':', m1, m2] =>
      ([h1, h2, m1, m2].all Char.isDigit) &&
        digitsVal [h1, h2] ≤ 23 && digitsVal [m1, m2] ≤ 59
  | [h1, h2, ':', m1, m2, ':', s1, s2] =>
      ([h1, h2, m1, m2, s1, s2].all Char.isDigit) &&
        digitsVal [h1, h2] ≤ 23 && digitsVal [m1, m2] ≤ 59 && digitsVal [s1, s2] ≤ 59
  | _ => false

/-- Validity of a `YYYY-MM` or `YYYY-MM-DD` prefix given its character list. -/
def isoDateOk (y1 y2 y3 y4 m1 m2 : Char) : Bool :=
  ([y1, y2, y3, y4, m1, m2].all Char.isDigit) &&
    1 ≤ digitsVal [m1, m2] && digitsVal [m1, m2] ≤ 12

/-- Model of the grammar accepted by `dateutil.parser.isoparse`: a year, a
year-month, a date, or a date followed by `T` and a valid time part.  (Basic
format, fractional seconds and timezone offsets are not modelled.) -/
def isoAccepts (s : String) : Bool :=
  match s.toList with
  | [y1, y2, y3, y4] => [y1, y2, y3, y4].all Char.isDigit
  | [y1, y2, y3, y4, '-', m1, m2] => isoDateOk y1 y2 y3 y4 m1 m2
  | [y1, y2, y3, y4, '-', m1, m2, '-', d1, d2] =>
      isoDateOk y1 y2 y3 y4 m1 m2 && ([d1, d2].all Char.isDigit) &&
        1 ≤ digitsVal [d1, d2] && digitsVal [d1, d2] ≤ 31
  | y1 :: y2 :: y3 :: y4 :: '-' :: m1 :: m2 :: '-' :: d1 :: d2 :: 'T' :: rest =>
      isoDateOk y1 y2 y3 y4 m1 m2 && ([d1, d2].all Char.isDigit) &&
        1 ≤ digitsVal [d1, d2] && digitsVal [d1, d2] ≤ 31 && isoTimeOk rest
  | _ => false

/-- Model of `dateutil.parser.isoparse` applied to a raw parameter value:
parses an ISO-8601 textual timestamp, raising `ValueError` on malformed text
and `TypeError` on non-string input. -/
def py_isoparse : PyVal → Except PyExn PyVal
  | .str s =>
      if isoAccepts s then .ok (.datetime s)
      else .error (.valueError ("Invalid isoformat string: \x27" ++ s ++ "\x27"))
  | _ => .error (.otherError "Parser must be a string or character stream, not this type")

/-- One hexadecimal digit (lowercase), for `\uXXXX` escapes. -/
def hexDigit (n : Nat) : String :=
  String.singleton (if n < 10 then Char.ofNat (48 + n) else Char.ofNat (87 + n))

/-- Escaping of one character by `json.dumps(·, ensure_ascii=False)`: only the
quote, the backslash and control characters are escaped; every character at or
above U+0020 — in particular every non-ASCII character — is emitted literally. -/
def jsonEscChar (c : Char) : String :=
  if c = '"' then "\\\""
  else if c = '\\' then "\\\\"
  else if c = '\n' then "\\n"
  else if c = '\t' then "\\t"
  else if c = '\r' then "\\r"
  else if c = '\x08' then "\\b"
  else if c = '\x0c' then "\\f"
  else if c.toNat < 0x20 then "\\u00" ++ hexDigit (c.toNat / 16) ++ hexDigit (c.toNat % 16)
  else String.singleton c

/-- JSON text of a Python string under `ensure_ascii=False`. -/
def jsonEscString (s : String) : String :=
  "\"" ++ String.join (s.toList.map jsonEscChar) ++ "\""

mutual
/-- Model of `json.dumps(x, ensure_ascii=False)` with the default separators
`", "` and `": "`: single-line JSON text, non-ASCII characters emitted
literally.  Unserialisable values (datetimes) raise `TypeError`. -/
def dumps : PyVal → Except PyExn String
  | .pyNone => .ok "null"
  | .bool b => .ok (if b then "true" else "false")
  | .int n => .ok (toString n)
  | .float q => .ok (toString q)
  | .str s => .ok (jsonEscString s)
  | .list xs => do
      return "[" ++ String.intercalate ", " (← dumpsList xs) ++ "]"
  | .tuple xs => do
      return "[" ++ String.intercalate ", " (← dumpsList xs) ++ "]"
  | .dict kvs => do
      return "\x7b" ++ String.intercalate ", " (← dumpsPairs kvs) ++ "\x7d"
  | .datetime _ => .error (.otherError "Object of type datetime is not JSON serializable")

def dumpsList : List PyVal → Except PyExn (List String)
  | [] => .ok []
  | v :: vs => do
      return (← dumps v) :: (← dumpsList vs)

def dumpsPairs : List (String × PyVal) → Except PyExn (List String)
  | [] => .ok []
  | (k, v) :: kvs => do
      return (jsonEscString k ++ ": " ++ (← dumps v)) :: (← dumpsPairs kvs)
end

mutual
/-- Whether a value is hashable (usable in the `value_type in type_mapping`
dictionary-membership test): lists and dicts are not, tuples are when their
elements are. -/
def hashable : PyVal → Bool
  | .list _ => false
  | .dict _ => false
  | .tuple xs => hashableList xs
  | _ => true

def hashableList : List PyVal → Bool
  | [] => true
  | v :: vs => hashable v && hashableList vs
end

/-- The keys of the `type_mapping` dictionary at lines 39-45 of the source. -/
def type_tags : List String := ["str", "int", "float", "datetime", "json"]

/-- Dispatch of `type_mapping[value_type](actual_value)` for a recognised tag. -/
def applyMapping (tag : String) (x : PyVal) : Except PyExn PyVal :=
  if tag = "str" then .ok (.str (py_str x))
  else if tag = "int" then py_int x
  else if tag = "float" then py_float x
  else if tag = "datetime" then py_isoparse x
  else
    match dumps x with
    | .ok s => .ok (.str s)
    | .error e => .error e

/-- The body of the per-parameter loop at lines 54-62 of the source: check the
entry is a two-element tuple (else raise `ValueError`), look the declared type
up in `type_mapping` (an unhashable tag raises `TypeError`; an unrecognised
hashable tag passes the raw value through unchanged), and apply the mapped
conversion. -/
def coerceEntry (value : PyVal) : Except PyExn PyVal :=
  match value with
  | .tuple [value_type, actual_value] =>
      if hashable value_type then
        match value_type with
        | .str tag =>
            if tag ∈ type_tags then applyMapping tag actual_value
            else .ok actual_value
        | _ => .ok actual_value
      else .error (.otherError "unhashable type")
  | _ => .error (.valueError "Each parameter value must be a tuple of (type, actual_value).")

/-- The whole coercion loop: coerce the entries in mapping order, aborting at
the first raised exception, collecting `param_values` in the same order. -/
def coerceParams : List (String × PyVal) → Except PyExn (List PyVal)
  | [] => .ok []
  | (_, v) :: rest => do
      let cv ← coerceEntry v
      let cvs ← coerceParams rest
      return cv :: cvs

/-- The result dictionary built by `execute_stored_procedure`.  `rows_updated`
is `none` when the `"rows_updated"` key is absent from the returned dict. -/
structure ExecResult where
  success : Bool
  error_message : Option String
  rows_updated : Option Int
deriving DecidableEq

/-- A call made to the pyodbc driver: a statement execution (with its SQL text
and positionally bound values) or a transaction commit. -/
inductive DbEvent where
  | executed (sql : String) (vals : List PyVal)
  | committed

/-- The chronological list of driver calls a run performed. -/
abbrev Trace := List DbEvent

/-- Oracle for the pyodbc driver: outcomes of connecting, acquiring a cursor,
executing a statement (returning the cursor's `rowcount`), and committing. -/
structure DB where
  connect : String → Except PyExn Unit
  cursor : Except PyExn Unit
  execute : String → List PyVal → Except PyExn Int
  commit : Except PyExn Unit

/-- `str(e)` of the `UnboundLocalError` raised at line 73 of the source when
the parameterised branch is taken: that branch binds the cursor result to
`tryres` (line 65), so the local `rows_updated` read at line 73 is unbound. -/
def unboundLocalMsg : String :=
  "cannot access local variable \x27rows_updated\x27 where it is not associated with a value"

/-- The `param_placeholders` string of line 51: `@<key> = ?` for each key of
the mapping, joined with `", "` in mapping order. -/
def param_placeholders (ps : List (String × PyVal)) : String :=
  String.intercalate ", " (ps.map fun kv => "@" ++ kv.1 ++ " = ?")

/-- Truthiness of the `params` argument in `if params:` (line 50): `None` and
the empty dict are falsy, a nonempty dict is truthy. -/
def paramsTruthy : Option (List (String × PyVal)) → Bool
  | none => false
  | some ps => !ps.isEmpty

/-- Line-by-line embedding of `execute_stored_procedure` (src/main.py lines
16-81).  The driver is the `db` oracle; `params` is `None` or an
insertion-ordered dictionary whose values are arbitrary Python values (the
source checks at runtime that each is a two-element tuple).  Returns the result
dictionary together with the trace of driver calls. -/
def execute_stored_procedure (db : DB) (connection_string stored_procedure : String)
    (params : Option (List (String × PyVal))) : ExecResult × Trace :=
  let result : ExecResult := { success := false, error_message := none, rows_updated := none }
  let fail : PyExn → Trace → ExecResult × Trace := fun e tr =>
    ({ result with error_message := some (excMessage e) }, tr)
  match db.connect connection_string with
  | .error e => fail e []
  | .ok _ =>
  match db.cursor with
  | .error e => fail e []
  | .ok _ =>
  if paramsTruthy params then
    let ps := params.getD []
    match coerceParams ps with
    | .error e => fail e []
    | .ok param_values =>
      let sql := "EXEC " ++ stored_procedure ++ " " ++ param_placeholders ps
      match db.execute sql param_values with
      | .error e => fail e [.executed sql param_values]
      | .ok _tryres =>
        match db.commit with
        | .error e => fail e [.executed sql param_values]
        | .ok _ =>
          -- Lines 72-73: `result["success"] = True` executes, then reading
          -- `rows_updated.rowcount` raises UnboundLocalError, caught by
          -- `except Exception` which fills `error_message`; the already-set
          -- success flag stays True and no "rows_updated" key is added.
          ({ success := true,
             error_message := some (excMessage (.otherError unboundLocalMsg)),
             rows_updated := none },
           [.executed sql param_values, .committed])
  else
    let sql := "EXEC " ++ stored_procedure
    match db.execute sql [] with
    | .error e => fail e [.executed sql []]
    | .ok rows_updated =>
      match db.commit with
      | .error e => fail e [.executed sql []]
      | .ok _ =>
        ({ success := true, error_message := none, rows_updated := some rows_updated },
         [.executed sql [], .committed])

/-- A catalog row returned by `SELECT name FROM sys.procedures`. -/
structure Row where
  name : String
deriving DecidableEq

/-- Oracle for the driver interactions of `list_stored_procedures`: the
outcome of connecting, and of executing the catalog query and fetching all
rows. -/
structure ListDB where
  connect : Except PyExn Unit
  query : Except PyExn (List Row)

/-- Run outcome of `list_stored_procedures`: the returned names (or the
propagated exception), whether a connection was acquired, and whether it was
closed. -/
structure ListOutcome where
  result : Except PyExn (List String)
  acquired : Bool
  closed : Bool

/-- Line-by-line embedding of `list_stored_procedures` (src/main.py lines
84-113).  The function has no exception handler: a failing catalog query
propagates, skipping the top-level `conn.close()` at line 110 (the cursor
`with` block closes only the cursor). -/
def list_stored_procedures (db : ListDB) : ListOutcome :=
  match db.connect with
  | .error e => { result := .error e, acquired := false, closed := false }
  | .ok _ =>
    match db.query with
    | .error e => { result := .error e, acquired := true, closed := false }
    | .ok procedures =>
        { result := .ok (procedures.map Row.name), acquired := true, closed := true }

/-- A driver oracle on which every call succeeds and the executed statement
reports `rowcount = 0`. -/
def allOkDB : DB where
  connect := fun _ => .ok ()
  cursor := .ok ()
  execute := fun _ _ => .ok 0
  commit := .ok ()

/-- The result of a parameterised call on the all-success driver: a single
well-formed parameter `{"A": ("str", "x")}`. -/
def bugRun : ExecResult × Trace :=
  execute_stored_procedure allOkDB "Driver=x" "RPA.journalizing.sp_UpdatePurgeMarker"
    (some [("A", .tuple [.str "str", .str "x"])])

/-- Whether a Python value is a two-element tuple, i.e. passes the
`isinstance(value, tuple) and len(value) == 2` test at line 55. -/
def isTwoTuple : PyVal → Bool
  | .tuple [_, _] => true
  | _ => false

/-- A parameter entry failing the two-element-tuple shape test raises exactly
the `ValueError` of line 62. -/
theorem coerceEntry_not_two_tuple (v : PyVal) (h : isTwoTuple v = false) :
    coerceEntry v =
      .error (.valueError "Each parameter value must be a tuple of (type, actual_value).") := by
  cases v with
  | tuple xs =>
      match xs with
      | [] => rfl
      | [_] => rfl
      | [_, _] => simp [isTwoTuple] at h
      | _ :: _ :: _ :: _ => rfl
  | _ => rfl

/-- Successful coercion of a parameter list coerces the entries pointwise, in
order: the i-th bound value is the coercion of the i-th entry's value. -/
theorem coerceParams_forall₂ (ps : List (String × PyVal)) (vs : List PyVal)
    (h : coerceParams ps = .ok vs) :
    List.Forall₂ (fun p v => coerceEntry p.2 = .ok v) ps vs := by
  induction ps generalizing vs with
  | nil =>
      simp only [coerceParams] at h
      cases h
      exact .nil
  | cons p rest ih =>
      obtain ⟨k, v⟩ := p
      simp only [coerceParams, bind, Except.bind] at h
      cases hc : coerceEntry v with
      | error e => rw [hc] at h; cases h
      | ok cv =>
          rw [hc] at h
          cases hr : coerceParams rest with
          | error e => rw [hr] at h; cases h
          | ok cvs =>
              rw [hr] at h
              cases h
              exact .cons hc (ih _ hr)

/-- Every error message the executor ever stores is `excMessage e` of the
exception `e` it intercepted. -/
theorem exec_message_shape (db : DB) (cs sp : String)
    (ps : Option (List (String × PyVal))) (m : String)
    (h : (execute_stored_procedure db cs sp ps).1.error_message = some m) :
    ∃ e, m = excMessage e := by
  unfold execute_stored_procedure at h
  dsimp only at h
  repeat' split at h
  all_goals (first | (exact ⟨_, (Option.some.inj h).symm⟩) | (cases h))

/-- C1: the claimed ExecutionResult invariant — `success = true` iff
`error_message` is absent, and `rows_updated` present iff `success = true` —
is violated by the code.  On a parameterised call on which the driver succeeds
throughout, line 72 sets `success = True`, then line 73 reads the local
`rows_updated`, which the parameterised branch never bound (line 65 bound the
cursor result to `tryres`); the resulting `UnboundLocalError` is caught by
`except Exception`, leaving `success = True` together with a populated
`error_message` and no `rows_updated` key. -/
theorem C1_result_invariant_violated :
    bugRun.1.success = true ∧
    bugRun.1.error_message = some ("An unexpected error occurred: " ++ unboundLocalMsg) ∧
    bugRun.1.rows_updated = none :=
  ⟨rfl, rfl, rfl⟩

/-- C2: the executor intercepts every exception (the embedding is a total
function into `ExecResult`), but the claim that every intercepted error is
converted into a result with `success == false` fails: on the parameterised
all-success run the intercepted `UnboundLocalError` leaves a result whose
`error_message` is populated while `success` is `true`, not `false`. -/
theorem C2_intercepted_error_without_failure_flag :
    bugRun.1.error_message.isSome = true ∧ bugRun.1.success = true :=
  ⟨rfl, rfl⟩

/-- C8: the claim that a failing call (one whose result carries an error
message) never commits is violated: on the parameterised all-success run the
transaction is committed (line 71) before the `UnboundLocalError` of line 73
is intercepted, so the returned result carries an error message even though a
commit was issued.  (No rollback call appears anywhere in the function body,
as the trace also shows.) -/
theorem C8_commit_issued_on_reported_failure :
    bugRun.1.error_message.isSome = true ∧
    bugRun.2 =
      [DbEvent.executed "EXEC RPA.journalizing.sp_UpdatePurgeMarker @A = ?" [.str "x"],
       DbEvent.committed] :=
  ⟨rfl, rfl⟩

/-- C7: a parameterless call on which the driver connects, executes the
`EXEC` statement and commits successfully returns `success = true`, no error
message, and `rows_updated` equal to the rowcount the driver reported (the
parameterless branch binds the cursor result to `rows_updated` at line 69, so
line 73 succeeds there). -/
theorem C7_no_params_success (db : DB) (cs sp : String) (rc : Int)
    (hconn : db.connect cs = .ok ()) (hcur : db.cursor = .ok ())
    (hexec : db.execute ("EXEC " ++ sp) [] = .ok rc) (hcomm : db.commit = .ok ()) :
    (execute_stored_procedure db cs sp none).1 =
      { success := true, error_message := none, rows_updated := some rc } := by
  simp [execute_stored_procedure, paramsTruthy, hconn, hcur, hexec, hcomm]

/-- C7 witness: on the all-success driver whose statement changes zero rows,
the parameterless call returns success with `rows_updated = 0`. -/
theorem C7_no_params_success_witness :
    (execute_stored_procedure allOkDB "Driver=x" "proc" none).1 =
      { success := true, error_message := none, rows_updated := some 0 } :=
  C7_no_params_success allOkDB "Driver=x" "proc" 0 rfl rfl rfl rfl

/-- C10: `if params:` at line 50 treats the empty dictionary exactly like
`None` — both are falsy — so a call with an empty parameter mapping takes the
parameterless branch and produces the very same result and the very same
driver calls (statement text included) as a call with `params = None`. -/
theorem C10_empty_params_equals_none (db : DB) (cs sp : String) :
    execute_stored_procedure db cs sp (some []) =
      execute_stored_procedure db cs sp none := rfl

/-- C9 (amended): `list_stored_procedures` acquires its own connection, and on
every call on which the catalog query succeeds it closes that connection and
returns the procedure names in catalog-returned order; but when the catalog
query raises, the exception propagates and the connection is not closed (the
`conn.close()` at line 110 is not in a `finally` block). -/
theorem C9_success_path_releases_and_orders (db : ListDB) (rows : List Row)
    (hconn : db.connect = .ok ()) (hq : db.query = .ok rows) :
    list_stored_procedures db =
      { result := .ok (rows.map Row.name), acquired := true, closed := true } := by
  simp [list_stored_procedures, hconn, hq]

/-- C9 witness: on a driver returning the two catalog rows `p1`, `p2`, the
lister returns `["p1", "p2"]` in order and closes its connection. -/
theorem C9_success_path_releases_and_orders_witness :
    list_stored_procedures { connect := .ok (), query := .ok [⟨"p1"⟩, ⟨"p2"⟩] } =
      { result := .ok ["p1", "p2"], acquired := true, closed := true } :=
  C9_success_path_releases_and_orders { connect := .ok (), query := .ok [⟨"p1"⟩, ⟨"p2"⟩] }
    [⟨"p1"⟩, ⟨"p2"⟩] rfl rfl

/-- C9 counterexample: on a driver whose catalog query fails, the connection
is acquired but never released, refuting the claim that the connection is
released on every execution path. -/
theorem C9_query_failure_leaks_connection :
    (list_stored_procedures
        { connect := .ok (), query := .error (.pyodbcError "catalog query failed") }).acquired
      = true ∧
    (list_stored_procedures
        { connect := .ok (), query := .error (.pyodbcError "catalog query failed") }).closed
      = false :=
  ⟨rfl, rfl⟩

/-- A coercion loop that raises on its first entry raises that exception. -/
theorem coerceParams_cons_error (k : String) (v : PyVal) (rest : List (String × PyVal))
    (e : PyExn) (h : coerceEntry v = .error e) :
    coerceParams ((k, v) :: rest) = .error e := by
  simp [coerceParams, h, bind, Except.bind]

/-- A parameterised run whose coercion loop raises returns the corresponding
error result without touching the driver further. -/
theorem exec_params_coerce_error (db : DB) (cs sp : String) (p0 : String × PyVal)
    (rest : List (String × PyVal)) (e : PyExn)
    (hconn : db.connect cs = .ok ()) (hcur : db.cursor = .ok ())
    (hco : coerceParams (p0 :: rest) = .error e) :
    (execute_stored_procedure db cs sp (some (p0 :: rest))).1 =
      { success := false, error_message := some (excMessage e), rows_updated := none } := by
  simp [execute_stored_procedure, paramsTruthy, hconn, hcur, hco]

/-- C3: every stored error message carries one of the three category prefixes;
a driver-level connection failure maps to `"Database error: " + detail`; a
coercion `ValueError` maps to `"Value error: " + detail` with `success =
false`; and in particular an entry that is not a two-element (type, value)
tuple yields `success = false` with the fixed `"Value error: ..."` message of
line 62. -/
theorem C3_error_category_mapping :
    (∀ (db : DB) (cs sp : String) (ps : Option (List (String × PyVal))) (m : String),
        (execute_stored_procedure db cs sp ps).1.error_message = some m →
        ∃ d, m = "Database error: " ++ d ∨ m = "Value error: " ++ d ∨
          m = "An unexpected error occurred: " ++ d) ∧
    (∀ (db : DB) (cs sp : String) (ps : Option (List (String × PyVal))) (d : String),
        db.connect cs = .error (.pyodbcError d) →
        (execute_stored_procedure db cs sp ps).1.error_message =
          some ("Database error: " ++ d)) ∧
    (∀ (db : DB) (cs sp : String) (p0 : String × PyVal) (rest : List (String × PyVal))
        (d : String),
        db.connect cs = .ok () → db.cursor = .ok () →
        coerceParams (p0 :: rest) = .error (.valueError d) →
        (execute_stored_procedure db cs sp (some (p0 :: rest))).1.success = false ∧
        (execute_stored_procedure db cs sp (some (p0 :: rest))).1.error_message =
          some ("Value error: " ++ d)) ∧
    (∀ (db : DB) (cs sp k : String) (v : PyVal) (rest : List (String × PyVal)),
        db.connect cs = .ok () → db.cursor = .ok () → isTwoTuple v = false →
        (execute_stored_procedure db cs sp (some ((k, v) :: rest))).1.success = false ∧
        (execute_stored_procedure db cs sp (some ((k, v) :: rest))).1.error_message =
          some ("Value error: " ++
            "Each parameter value must be a tuple of (type, actual_value).")) := by
  refine ⟨?_, ?_, ?_, ?_⟩
  · intro db cs sp ps m h
    obtain ⟨e, rfl⟩ := exec_message_shape db cs sp ps m h
    cases e with
    | pyodbcError d => exact ⟨d, Or.inl rfl⟩
    | valueError d => exact ⟨d, Or.inr (Or.inl rfl)⟩
    | otherError d => exact ⟨d, Or.inr (Or.inr rfl)⟩
  · intro db cs sp ps d h
    simp [execute_stored_procedure, h, excMessage]
  · intro db cs sp p0 rest d hconn hcur hco
    rw [exec_params_coerce_error db cs sp p0 rest _ hconn hcur hco]
    exact ⟨rfl, rfl⟩
  · intro db cs sp k v rest hconn hcur hsh
    have hco := coerceParams_cons_error k v rest _ (coerceEntry_not_two_tuple v hsh)
    rw [exec_params_coerce_error db cs sp (k, v) rest _ hconn hcur hco]
    exact ⟨rfl, rfl⟩

/-- C3 witness: a single parameter whose value is the bare string `"bad"`
(not a two-element tuple) makes the all-success driver run return a failed
result with the fixed value-error message. -/
theorem C3_error_category_mapping_witness :
    (execute_stored_procedure allOkDB "Driver=x" "proc"
        (some [("A", PyVal.str "bad")])).1.success = false ∧
    (execute_stored_procedure allOkDB "Driver=x" "proc"
        (some [("A", PyVal.str "bad")])).1.error_message =
      some ("Value error: " ++
        "Each parameter value must be a tuple of (type, actual_value).") :=
  C3_error_category_mapping.2.2.2 allOkDB "Driver=x" "proc" "A" (PyVal.str "bad") []
    rfl rfl rfl

/-- A parameterised run whose coercion loop succeeds submits to the driver the
statement built from the keys in mapping order with the coerced values bound
in the same order, as its first driver call. -/
theorem exec_params_ok_trace (db : DB) (cs sp : String) (p0 : String × PyVal)
    (rest : List (String × PyVal)) (vs : List PyVal)
    (hconn : db.connect cs = .ok ()) (hcur : db.cursor = .ok ())
    (hco : coerceParams (p0 :: rest) = .ok vs) :
    ∃ tr, (execute_stored_procedure db cs sp (some (p0 :: rest))).2 =
      DbEvent.executed ("EXEC " ++ sp ++ " " ++ param_placeholders (p0 :: rest)) vs
        :: tr := by
  cases hexec : db.execute ("EXEC " ++ sp ++ " " ++ param_placeholders (p0 :: rest)) vs with
  | error e =>
      exact ⟨[], by simp [execute_stored_procedure, paramsTruthy, hconn, hcur, hco, hexec]⟩
  | ok rc =>
      cases hcomm : db.commit with
      | error e =>
          exact ⟨[],
            by simp [execute_stored_procedure, paramsTruthy, hconn, hcur, hco, hexec, hcomm]⟩
      | ok u =>
          exact ⟨[DbEvent.committed],
            by cases u
               simp [execute_stored_procedure, paramsTruthy, hconn, hcur, hco, hexec, hcomm]⟩

/-- C4: statement construction is deterministic in the parameter order.  With
no parameters the submitted statement text is exactly `EXEC <sp>` with no
bound values; with a nonempty parameter mapping the text is `EXEC <sp>`
followed by `@<name> = ?` placeholders joined in mapping order, the bound
value list is the coerced values in pointwise the same order as the entries,
and in particular the parameters `A`, `B` in order produce exactly
`EXEC proc @A = ?, @B = ?` with the bound values in that order. -/
theorem C4_statement_construction :
    (∀ (db : DB) (cs sp : String),
        db.connect cs = .ok () → db.cursor = .ok () →
        ∃ tr, (execute_stored_procedure db cs sp none).2 =
          DbEvent.executed ("EXEC " ++ sp) [] :: tr) ∧
    (∀ (db : DB) (cs sp : String) (p0 : String × PyVal) (rest : List (String × PyVal))
        (vs : List PyVal),
        db.connect cs = .ok () → db.cursor = .ok () →
        coerceParams (p0 :: rest) = .ok vs →
        (∃ tr, (execute_stored_procedure db cs sp (some (p0 :: rest))).2 =
            DbEvent.executed ("EXEC " ++ sp ++ " " ++ param_placeholders (p0 :: rest)) vs
              :: tr) ∧
        List.Forall₂ (fun (p : String × PyVal) v => coerceEntry p.2 = .ok v) (p0 :: rest) vs) ∧
    (∀ (db : DB) (cs : String),
        db.connect cs = .ok () → db.cursor = .ok () →
        ∃ tr, (execute_stored_procedure db cs "proc"
            (some [("A", .tuple [.str "str", .str "x"]),
                   ("B", .tuple [.str "str", .str "y"])])).2 =
          DbEvent.executed "EXEC proc @A = ?, @B = ?" [.str "x", .str "y"] :: tr) := by
  refine ⟨?_, ?_, ?_⟩
  · intro db cs sp hconn hcur
    cases hexec : db.execute ("EXEC " ++ sp) [] with
    | error e =>
        exact ⟨[], by simp [execute_stored_procedure, paramsTruthy, hconn, hcur, hexec]⟩
    | ok rc =>
        cases hcomm : db.commit with
        | error e =>
            exact ⟨[],
              by simp [execute_stored_procedure, paramsTruthy, hconn, hcur, hexec, hcomm]⟩
        | ok u =>
            exact ⟨[DbEvent.committed],
              by cases u
                 simp [execute_stored_procedure, paramsTruthy, hconn, hcur, hexec, hcomm]⟩
  · intro db cs sp p0 rest vs hconn hcur hco
    exact ⟨exec_params_ok_trace db cs sp p0 rest vs hconn hcur hco,
      coerceParams_forall₂ _ _ hco⟩
  · intro db cs hconn hcur
    exact exec_params_ok_trace db cs "proc" ("A", .tuple [.str "str", .str "x"])
      [("B", .tuple [.str "str", .str "y"])] [.str "x", .str "y"] hconn hcur rfl

/-- C4 witness: on the all-success driver the parameterless statement text and
the two-parameter `A`, `B` statement text and binding order are exactly as
claimed. -/
theorem C4_statement_construction_witness :
    (∃ tr, (execute_stored_procedure allOkDB "Driver=x" "proc" none).2 =
        DbEvent.executed "EXEC proc" [] :: tr) ∧
    (∃ tr, (execute_stored_procedure allOkDB "Driver=x" "proc"
          (some [("A", .tuple [.str "str", .str "x"]),
                 ("B", .tuple [.str "str", .str "y"])])).2 =
        DbEvent.executed "EXEC proc @A = ?, @B = ?" [.str "x", .str "y"] :: tr) :=
  ⟨C4_statement_construction.1 allOkDB "Driver=x" "proc" rfl rfl,
   C4_statement_construction.2.2 allOkDB "Driver=x" rfl rfl⟩

/-- C5: JSON coercion is `json.dumps(·, ensure_ascii=False)`: a parameter
declared with type tag `"json"` binds the serialised single-line JSON text of
its raw value; serialising the dict `{"a": "b"}` yields exactly the literal
text `{"a": "b"}`; every character at or above U+0020 other than the quote and
the backslash — in particular every non-ASCII character — is emitted
literally, never escaped, as the serialised `"æøå"` also shows. -/
theorem C5_json_coercion :
    (∀ (v : PyVal) (s : String), dumps v = .ok s →
        coerceEntry (.tuple [.str "json", v]) = .ok (.str s)) ∧
    dumps (.dict [("a", .str "b")]) = .ok "\x7b\"a\": \"b\"\x7d" ∧
    (∀ c : Char, 0x20 ≤ c.toNat → c ≠ '"' → c ≠ '\\' →
        jsonEscChar c = String.singleton c) ∧
    dumps (.str "æøå") = .ok "\"æøå\"" := by
  refine ⟨?_, rfl, ?_, rfl⟩
  · intro v s h
    simp [coerceEntry, hashable, applyMapping, type_tags, h]
  · intro c h1 h2 h3
    have h4 : ¬ (c.toNat < 0x20) := by omega
    have hchar : ∀ d : Char, d.toNat < 0x20 → c ≠ d := fun d hd he => h4 (he ▸ hd)
    simp [jsonEscChar, h2, h3, hchar '\n' (by decide), hchar '\t' (by decide),
      hchar '\r' (by decide), hchar '\x08' (by decide), hchar '\x0c' (by decide), h4]

/-- C5 witness: the `"json"`-tagged parameter holding `{"a": "b"}` coerces to
exactly the text `{"a": "b"}`, and `æ` is emitted literally. -/
theorem C5_json_coercion_witness :
    coerceEntry (.tuple [.str "json", .dict [("a", .str "b")]]) =
      .ok (.str "\x7b\"a\": \"b\"\x7d") ∧
    jsonEscChar 'æ' = String.singleton 'æ' :=
  ⟨C5_json_coercion.1 _ _ C5_json_coercion.2.1,
   C5_json_coercion.2.2.1 'æ' (by decide) (by decide) (by decide)⟩

/-- C6: the coercion dispatch on the declared type tag is total.  Tag `"str"`
applies the builtin `str` (identity on strings); tags `"int"`, `"float"` and
`"datetime"` apply the numeric and ISO-8601 parsers, which succeed on
well-formed input and raise `ValueError` on malformed input (shown on
representative inputs); any unrecognised hashable tag — a string outside the
mapping keys, or a non-string such as a Python type object — passes the raw
value through unchanged rather than failing. -/
theorem C6_type_dispatch :
    (∀ v : PyVal, coerceEntry (.tuple [.str "str", v]) = .ok (.str (py_str v))) ∧
    (∀ s : String, py_str (.str s) = s) ∧
    (∀ v : PyVal, coerceEntry (.tuple [.str "int", v]) = py_int v) ∧
    (∀ v : PyVal, coerceEntry (.tuple [.str "float", v]) = py_float v) ∧
    (∀ v : PyVal, coerceEntry (.tuple [.str "datetime", v]) = py_isoparse v) ∧
    (py_int (.str "42") = .ok (.int 42) ∧
      py_int (.str "abc") =
        .error (.valueError "invalid literal for int() with base 10: \x27abc\x27")) ∧
    (py_float (.str "3.5") = .ok (.float ((3 : Rat) + (5 : Rat) / 10 ^ 1)) ∧
      py_float (.str "xyz") =
        .error (.valueError "could not convert string to float: \x27xyz\x27")) ∧
    (py_isoparse (.str "2024-05-13T12:30:00") = .ok (.datetime "2024-05-13T12:30:00") ∧
      py_isoparse (.str "not-a-date") =
        .error (.valueError "Invalid isoformat string: \x27not-a-date\x27")) ∧
    (∀ (t : String) (v : PyVal), t ∉ type_tags →
        coerceEntry (.tuple [.str t, v]) = .ok v) ∧
    (∀ (w v : PyVal), hashable w = true → (∀ t, w ≠ .str t) →
        coerceEntry (.tuple [w, v]) = .ok v) := by
  refine ⟨fun v => rfl, fun s => rfl, fun v => rfl, fun v => rfl, fun v => rfl,
    ⟨rfl, rfl⟩, ⟨rfl, rfl⟩, ⟨rfl, rfl⟩, ?_, ?_⟩
  · intro t v h
    simp [coerceEntry, hashable, h]
  · intro w v h1 h2
    cases w with
    | str t => exact absurd rfl (h2 t)
    | list xs => simp [hashable] at h1
    | dict kvs => simp [hashable] at h1
    | tuple xs => simp [coerceEntry, h1]
    | int n => rfl
    | float q => rfl
    | bool b => rfl
    | pyNone => rfl
    | datetime iso => rfl

/-- C6 witness: the unknown string tag `"unknown"` and the non-string tag `3`
both pass the raw value through unchanged. -/
theorem C6_type_dispatch_witness :
    coerceEntry (.tuple [.str "unknown", .pyNone]) = .ok .pyNone ∧
    coerceEntry (.tuple [.int 3, .str "x"]) = .ok (.str "x") :=
  ⟨(C6_type_dispatch.2.2.2.2.2.2.2.2.1) "unknown" .pyNone (by decide),
   (C6_type_dispatch.2.2.2.2.2.2.2.2.2) (.int 3) (.str "x") rfl
     (fun t h => PyVal.noConfusion h)⟩

/-- C10 witness: on the all-success driver, the empty-mapping call and the
`None` call coincide. -/
theorem C10_empty_params_equals_none_witness :
    execute_stored_procedure allOkDB "Driver=x" "proc" (some []) =
      execute_stored_procedure allOkDB "Driver=x" "proc" none :=
  C10_empty_params_equals_none allOkDB "Driver=x" "proc"
